import Mathlib

/-!
Shallow embedding of the Audio_Downloader repository
(src/Audio_Downloader.py and src/xeno.py) and verification of the
specification's claims about it.

The embedding models:
  * `sanitize` (both files, identical): `re.sub(r'[\\/*?:"<>|]', '', name.replace(' ', '_'))`;
  * the Macaulay Library ("Paginated Catalog") adapter `find_audio_asset_ids`;
  * the Xeno-Canto ("Flat Catalog") adapter `fetch_xeno_canto`;
  * the retrieval engine `download_audio` in both its variants
    (Audio_Downloader.py checks file existence before the network fetch;
    xeno.py fetches first and checks existence afterwards);
  * the taxonomy lookup `get_taxonomy_info` and `main`'s folder-path
    construction;
  * the throttling structure of `main`'s Macaulay loop and of
    `fetch_xeno_canto`'s loop, as event traces.

Network and filesystem effects are made explicit: an `Env` carries the
transport (a function from URL to an optional payload, `none` modelling any
transport or HTTP-status failure caught by the Python `except` blocks) and
fault-injection flags for the sidecar-JSON write and the DuckDB insert; a
`World` carries the set of committed files, sidecar files, inserted rows and
a count of network fetches performed.
-/

/-! ## Sanitizer (Audio_Downloader.py line 59-61, xeno.py line 33-34) -/

/-- The character class of `re.sub(r'[\\/*?:"<>|]', '', ...)`. -/
def illegalChar (c : Char) : Bool :=
  c = '\\' || c = '/' || c = '*' || c = '?' || c = ':' || c = '"' ||
  c = '<' || c = '>' || c = '|'

/-- Mirrors Python `name.replace(' ', '_')`: every occurrence of the
single character U+0020 becomes an underscore; no other character
(in particular no tab or newline) is touched. -/
def replaceSpaces : List Char → List Char
  | [] => []
  | c :: cs => (if c = ' ' then '_' else c) :: replaceSpaces cs

/-- Mirrors `re.sub(r'[\\/*?:"<>|]', '', s)`: deletes every occurrence of a
character in the class, keeps everything else in order. -/
def stripIllegal : List Char → List Char
  | [] => []
  | c :: cs => if illegalChar c then stripIllegal cs else c :: stripIllegal cs

/-- `sanitize` as written in the source: replace spaces by underscores,
then delete the illegal characters. -/
def sanitize (s : String) : String := ⟨stripIllegal (replaceSpaces s.data)⟩

/-- The sanitizer as the spec words it: replaces each WHITESPACE character
with the joining character, then strips the illegal characters.  Used only
to compare the spec's wording against the source's `sanitize`. -/
def sanitizeSpecWording (s : String) : String :=
  ⟨(s.data.map fun c => if c.isWhitespace then '_' else c).filter
    (fun c => !illegalChar c)⟩

/-- The amended sanitizer contract: only the space character U+0020 is
replaced; illegal characters are stripped. -/
def sanitizeAmendedSpec (s : String) : String :=
  ⟨(s.data.map fun c => if c = ' ' then '_' else c).filter
    (fun c => !illegalChar c)⟩

theorem replaceSpaces_eq_map (l : List Char) :
    replaceSpaces l = l.map fun c => if c = ' ' then '_' else c := by
  induction l with
  | nil => rfl
  | cons c cs ih => simp [replaceSpaces, ih]

theorem stripIllegal_eq_filter (l : List Char) :
    stripIllegal l = l.filter fun c => !illegalChar c := by
  induction l with
  | nil => rfl
  | cons c cs ih =>
      by_cases h : illegalChar c <;> simp [stripIllegal, h, ih]

theorem mem_stripIllegal {c : Char} {l : List Char} (h : c ∈ stripIllegal l) :
    c ∈ l ∧ illegalChar c = false := by
  rw [stripIllegal_eq_filter] at h
  have := List.mem_filter.mp h
  simpa using this

theorem space_not_mem_replaceSpaces (l : List Char) : ' ' ∉ replaceSpaces l := by
  induction l with
  | nil => simp [replaceSpaces]
  | cons c cs ih =>
      simp only [replaceSpaces, List.mem_cons]
      rintro (h | h)
      · by_cases hc : c = ' '
        · simp [hc] at h
        · rw [if_neg hc] at h
          exact hc h.symm
      · exact ih h

theorem replaceSpaces_id {l : List Char} (h : ' ' ∉ l) : replaceSpaces l = l := by
  induction l with
  | nil => rfl
  | cons c cs ih =>
      simp only [List.mem_cons, not_or] at h
      simp [replaceSpaces, Ne.symm h.1, ih h.2]

theorem stripIllegal_id {l : List Char} (h : ∀ c ∈ l, illegalChar c = false) :
    stripIllegal l = l := by
  induction l with
  | nil => rfl
  | cons c cs ih =>
      have hc := h c (by simp)
      simp [stripIllegal, hc, ih fun d hd => h d (by simp [hd])]

/-! ## Claim C8: sanitize behaviour -/

/-- C8 counterexample: the claim says sanitize replaces EACH WHITESPACE
character with the joining character, but the source only replaces the
space character U+0020 (`name.replace(' ', '_')`).  On the input
`"a\tb"` (a tab is a whitespace character) sanitize leaves the tab in
place, so the output differs from the spec-worded sanitizer, which
produces `"a_b"`. -/
theorem sanitize_whitespace_cex :
    sanitize "a\tb" = "a\tb" ∧ sanitizeSpecWording "a\tb" = "a_b" ∧
      ('\t'.isWhitespace = true) ∧ sanitize "a\tb" ≠ sanitizeSpecWording "a\tb" := by
  refine ⟨rfl, rfl, rfl, ?_⟩
  decide

/-- C8 (amended): sanitize replaces each SPACE character (U+0020) with an
underscore and removes every occurrence of the characters in the class
`\\ / * ? : " < > |`; it is a pure total Lean function, the empty input
yields the empty output, no illegal character and no space survives in the
output, and it agrees with the amended map-then-filter contract. -/
theorem sanitize_amended (s : String) :
    sanitize s = sanitizeAmendedSpec s ∧
      (∀ c ∈ (sanitize s).data, illegalChar c = false) ∧
      ' ' ∉ (sanitize s).data ∧
      sanitize "" = "" := by
  refine ⟨?_, ?_, ?_, rfl⟩
  · simp [sanitize, sanitizeAmendedSpec, stripIllegal_eq_filter, replaceSpaces_eq_map]
  · intro c hc
    exact (mem_stripIllegal hc).2
  · intro hmem
    exact space_not_mem_replaceSpaces _ (mem_stripIllegal hmem).1

/-- C8 witness: the amended theorem instantiated at `"a b*"`, whose
sanitized form is `"a_b"`; discharges the membership hypothesis of the
no-illegal-character conjunct at the concrete character `'a'`. -/
theorem sanitize_amended_witness : illegalChar 'a' = false :=
  (sanitize_amended "a b*").2.1 'a' (by decide)

/-! ## Claim C9: sanitizer idempotence -/

/-- C9: sanitize is idempotent: `sanitize (sanitize x) = sanitize x` for
every input string.  The first pass removes every space (each became an
underscore) and every illegal character, so the second pass finds nothing
to replace or strip. -/
theorem sanitize_idempotent (s : String) :
    sanitize (sanitize s) = sanitize s := by
  unfold sanitize
  have hspace : ' ' ∉ stripIllegal (replaceSpaces s.data) := fun h =>
    space_not_mem_replaceSpaces _ (mem_stripIllegal h).1
  have hill : ∀ c ∈ stripIllegal (replaceSpaces s.data), illegalChar c = false :=
    fun c hc => (mem_stripIllegal hc).2
  rw [replaceSpaces_id hspace, stripIllegal_id hill]

/-! ## Flat-catalog media URL normalization
(Audio_Downloader.py line 143, xeno.py line 89):
`file_url = f"https:{item['file']}" if item['file'].startswith("//") else item['file']` -/

/-- Python `item['file'].startswith("//")`: the string's first two
characters are both `/`. -/
def startsWithSlashSlash (s : String) : Bool :=
  match s.data with
  | '/' :: '/' :: _ => true
  | _ => false

def normalizeFileUrl (s : String) : String :=
  if startsWithSlashSlash s then "https:" ++ s else s

/-- C6: a protocol-relative media URL (beginning with `//`) is rewritten to
the explicit https absolute URL (`//example.org/a.mp3` becomes
`https://example.org/a.mp3`), and a URL that does not begin with `//` is
passed through unchanged. -/
theorem normalizeFileUrl_correct :
    normalizeFileUrl "//example.org/a.mp3" = "https://example.org/a.mp3" ∧
      (∀ s : String, startsWithSlashSlash s = true → normalizeFileUrl s = "https:" ++ s) ∧
      (∀ s : String, startsWithSlashSlash s = false → normalizeFileUrl s = s) := by
  refine ⟨by decide, ?_, ?_⟩
  · intro s h
    simp [normalizeFileUrl, h]
  · intro s h
    simp [normalizeFileUrl, h]

/-- C6 witness: the two conditional conjuncts applied at concrete URLs. -/
theorem normalizeFileUrl_correct_witness :
    normalizeFileUrl "//xc.org/a.mp3" = "https://xc.org/a.mp3" ∧
      normalizeFileUrl "http://xc.org/a.mp3" = "http://xc.org/a.mp3" :=
  ⟨normalizeFileUrl_correct.2.1 "//xc.org/a.mp3" (by decide),
   normalizeFileUrl_correct.2.2 "http://xc.org/a.mp3" (by decide)⟩

/-! ## Paginated Catalog adapter — Macaulay Library
(Audio_Downloader.py lines 85-98: `find_audio_asset_ids`)

The HTTP layer is modelled as a transport function from a request to either
a page or a failure.  A request is either the initial parameterized GET
(`taxonCode`, `mediaType`, `limit` — exactly the params dict of line 86-90)
or a GET of a continuation URL; the response page carries the list
`results.content` and an optional continuation URL.  `.error ()` stands for
any exception caught by the `except` block (connection error, timeout, or
`raise_for_status`). -/

structure MLItem where
  assetId : Option String
  scientificName : Option String
  location : Option String
  date : Option String
  recordist : Option String
  country : Option String
  license : Option String
deriving DecidableEq

structure MLPage where
  content : List MLItem
  next : Option String
deriving DecidableEq

inductive MLRequest where
  | initial (taxonCode : String) (mediaType : String) (limit : Nat)
  | follow (url : String)
deriving DecidableEq

def MLTransport : Type := MLRequest → Except Unit MLPage

/-- `find_audio_asset_ids` as written in Audio_Downloader.py: ONE request
with the query parameters, `content[:max_items]` on success, `[]` on any
exception.  The source contains no continuation-following code; the
returned list is the first page truncated. -/
def find_audio_asset_ids (t : MLTransport) (taxonCode : String)
    (maxItems : Nat) : List MLItem :=
  match t (.initial taxonCode "audio" maxItems) with
  | .error _ => []
  | .ok page => page.content.take maxItems

/-- An item with asset id `i` and no other provenance fields. -/
def mlItemWithId (i : String) : MLItem :=
  ⟨some i, none, none, none, none, none, none⟩

/-- A three-page server: the initial request yields one valid item and a
continuation link to `"p2"`; `"p2"` yields a second item and a link to
`"p3"`; `"p3"` yields a third item and no link. -/
def threePageTransport : MLTransport := fun r =>
  match r with
  | .initial _ _ _ => .ok ⟨[mlItemWithId "1"], some "p2"⟩
  | .follow u =>
      if u = "p2" then .ok ⟨[mlItemWithId "2"], some "p3"⟩
      else .ok ⟨[mlItemWithId "3"], none⟩

/-- C2 counterexample: fed three pages (two with a continuation link, one
without) and a maximum of 21 items, the adapter yields only the first
page's item, not the union of all three pages' valid items: it never
issues a request for the continuation URL. -/
theorem find_audio_asset_ids_no_pagination_cex :
    find_audio_asset_ids threePageTransport "norcar" 21 = [mlItemWithId "1"] ∧
      find_audio_asset_ids threePageTransport "norcar" 21 ≠
        [mlItemWithId "1", mlItemWithId "2", mlItemWithId "3"] ∧
      (find_audio_asset_ids threePageTransport "norcar" 21).length = 1 := by
  refine ⟨rfl, ?_, rfl⟩
  decide

/-- C2 (amended): the adapter issues exactly one parameterized request and
yields at most `max_items` items taken from that single response page; it
never follows a continuation URL, so its output depends only on the
response to the initial request (two transports that agree on the initial
request give identical output, whatever either serves at any continuation
URL), and its length never exceeds `max_items`. -/
theorem find_audio_asset_ids_single_page (t₁ t₂ : MLTransport)
    (taxonCode : String) (maxItems : Nat)
    (h : t₁ (.initial taxonCode "audio" maxItems) =
         t₂ (.initial taxonCode "audio" maxItems)) :
    find_audio_asset_ids t₁ taxonCode maxItems =
      find_audio_asset_ids t₂ taxonCode maxItems ∧
    (find_audio_asset_ids t₁ taxonCode maxItems).length ≤ maxItems := by
  constructor
  · unfold find_audio_asset_ids
    rw [h]
  · unfold find_audio_asset_ids
    cases t₁ (.initial taxonCode "audio" maxItems) with
    | error e => simp
    | ok page => simp

/-- A transport serving the same first page as `threePageTransport` but
failing every continuation request. -/
def failTailTransport : MLTransport := fun r =>
  match r with
  | .initial _ _ _ => .ok ⟨[mlItemWithId "1"], some "p2"⟩
  | .follow _ => .error ()

/-- C2 witness: `threePageTransport` and `failTailTransport` agree on the
initial request, so the adapter's output is identical, and its length is
bounded by 21. -/
theorem find_audio_asset_ids_single_page_witness :
    find_audio_asset_ids threePageTransport "norcar" 21 =
      find_audio_asset_ids failTailTransport "norcar" 21 ∧
    (find_audio_asset_ids threePageTransport "norcar" 21).length ≤ 21 :=
  find_audio_asset_ids_single_page threePageTransport failTailTransport
    "norcar" 21 rfl

/-! ## Claim C3: failure handling in the paginated adapter -/

/-- C3: a transport or HTTP-status failure never escapes
`find_audio_asset_ids` (its `except` block catches everything and it
returns a plain list).  If the only request it issues — the initial one —
fails, it returns the empty list (every item from prior pages, of which
there are none).  And in the three-page scenario where the server's second
page fails, the adapter yields exactly the first page's items: the failing
continuation is never even requested, so nothing already obtained is
lost and no exception propagates. -/
theorem find_audio_asset_ids_failure (t : MLTransport) (taxonCode : String)
    (maxItems : Nat) :
    (t (.initial taxonCode "audio" maxItems) = .error () →
        find_audio_asset_ids t taxonCode maxItems = []) ∧
    (∀ (content₁ : List MLItem) (u₂ : String),
        t (.initial taxonCode "audio" maxItems) = .ok ⟨content₁, some u₂⟩ →
        t (.follow u₂) = .error () →
        content₁.length ≤ maxItems →
        find_audio_asset_ids t taxonCode maxItems = content₁) := by
  constructor
  · intro h
    unfold find_audio_asset_ids
    rw [h]
  · intro content₁ u₂ h₁ _ hlen
    unfold find_audio_asset_ids
    rw [h₁]
    exact List.take_of_length_le hlen

/-- A transport whose initial request always fails. -/
def failFirstTransport : MLTransport := fun _ => .error ()

/-- A server whose first page succeeds with one item and a continuation
link to `"p2"`, and whose second page fails at the transport level. -/
def failSecondPageTransport : MLTransport := fun r =>
  match r with
  | .initial _ _ _ => .ok ⟨[mlItemWithId "1"], some "p2"⟩
  | .follow _ => .error ()

/-- C3 witness: with the initial request failing the adapter returns `[]`;
with page 2 of the three-page scenario failing it returns exactly page 1's
items. -/
theorem find_audio_asset_ids_failure_witness :
    find_audio_asset_ids failFirstTransport "norcar" 21 = [] ∧
      find_audio_asset_ids failSecondPageTransport "norcar" 21 =
        [mlItemWithId "1"] :=
  ⟨(find_audio_asset_ids_failure failFirstTransport "norcar" 21).1 rfl,
   (find_audio_asset_ids_failure failSecondPageTransport "norcar" 21).2
     [mlItemWithId "1"] "p2" rfl rfl (by decide)⟩

/-! ## Retrieval engine — `download_audio`
(Audio_Downloader.py lines 109-133; xeno.py lines 59-79)

The filesystem, the DuckDB metadata table and the network are made
explicit.  `Env.fetch` models `requests.get(url, timeout=15)` followed by
`raise_for_status()`: `some bytes` is a successful 2xx response body,
`none` any transport error, timeout or error status (all of which the
Python code turns into one caught exception).  `Env.sidecarRaises` and
`Env.insertRaises` inject an exception in the sidecar-JSON write
(`json.dump`) and in the DuckDB `INSERT` (`store_metadata`) respectively,
for reasoning about mid-sequence failures. -/

/-- The fixed metadata row schema of the `metadata` table
(Audio_Downloader.py lines 43-57 / 145-157). -/
structure MetadataRecord where
  source : Option String
  id : Option String
  species : Option String
  common_name : Option String
  location : Option String
  date : Option String
  recordist : Option String
  country : Option String
  license : Option String
  url : Option String
  filename : Option String
deriving DecidableEq

structure World where
  /-- paths of committed binary media files (`open(filepath,'wb')` completed) -/
  files : List String
  /-- paths of committed sidecar JSON files -/
  sidecars : List String
  /-- rows of the DuckDB `metadata` table, most recent first -/
  rows : List MetadataRecord
  /-- number of media-URL network GETs issued so far -/
  fetches : Nat
deriving DecidableEq

structure Env where
  fetch : String → Option (List Nat)
  sidecarRaises : Bool
  insertRaises : Bool

/-- `os.path.join(species_folder, filename)` for the relative paths this
program builds. -/
def pathJoin (folder filename : String) : String := folder ++ "/" ++ filename

/-- Python `filepath.rsplit(".", 1)[0]`: everything before the last dot,
or the whole string when there is no dot. -/
def stemOf (p : String) : String :=
  if p.data.contains '.' then
    ⟨((p.data.reverse.dropWhile fun c => c != '.').drop 1).reverse⟩
  else p

def jsonPathOf (p : String) : String := stemOf p ++ ".json"

/-- The three terminal states of the retrieval engine's per-asset state
machine. -/
inductive Outcome where
  | saved
  | skipped
  | failed
deriving DecidableEq

/-- The Python return value of Audio_Downloader.py's `download_audio`:
`True` only for `saved`; both `skipped` ("Already exists", line 115) and
`failed` (line 133) return `False`. -/
def pyBool : Outcome → Bool
  | .saved => true
  | _ => false

/-- `download_audio` of Audio_Downloader.py (lines 109-133): the existence
check on the deterministic path comes FIRST, so an existing file
short-circuits before any network fetch, sidecar write or insert; on a
fresh path the media is fetched, the binary file committed, the sidecar
written, the row inserted; any exception yields `failed` with all effects
up to that point kept. -/
def download_audio (env : Env) (folder filename url : String)
    (meta : MetadataRecord) (w : World) : Outcome × World :=
  let filepath := pathJoin folder filename
  let jsonpath := jsonPathOf filepath
  if filepath ∈ w.files then
    (.skipped, w)
  else
    match env.fetch url with
    | none => (.failed, { w with fetches := w.fetches + 1 })
    | some _ =>
      let w₁ : World := { w with fetches := w.fetches + 1,
                                 files := filepath :: w.files }
      if env.sidecarRaises then
        (.failed, w₁)
      else
        let w₂ : World := { w₁ with sidecars := jsonpath :: w₁.sidecars }
        if env.insertRaises then
          (.failed, w₂)
        else
          (.saved, { w₂ with rows := meta :: w₂.rows })

/-- `download_audio` of xeno.py (lines 59-79): the network fetch comes
FIRST and the existence check only afterwards; on an existing path it
still returns `True` ("Already exists", line 76), the same value as a
fresh save; there is no DuckDB insert in this variant.  An exception in
the sidecar write leaves the binary file committed and returns `False`.
The metadata argument is taken as in the source; only the sidecar path is
tracked, so the record itself is not read. -/
def xeno_download_audio (env : Env) (folder filename url : String)
    (_meta : MetadataRecord) (w : World) : Bool × World :=
  match env.fetch url with
  | none => (false, { w with fetches := w.fetches + 1 })
  | some _ =>
    let w₁ : World := { w with fetches := w.fetches + 1 }
    let filepath := pathJoin folder filename
    let jsonpath := jsonPathOf filepath
    if filepath ∈ w₁.files then
      (true, w₁)
    else
      let w₂ : World := { w₁ with files := filepath :: w₁.files }
      if env.sidecarRaises then
        (false, w₂)
      else
        (true, { w₂ with sidecars := jsonpath :: w₂.sidecars })

/-! ## Claim C1: retrieval idempotence -/

/-- An environment in which every media fetch succeeds and neither the
sidecar write nor the insert raises. -/
def okEnv : Env := ⟨fun _ => some [], false, false⟩

def emptyWorld : World := ⟨[], [], [], 0⟩

def sampleMeta : MetadataRecord :=
  ⟨some "Xeno-Canto", some "123", some "cardinalis", some "Northern Cardinal",
   none, none, none, none, none, some "https://xeno-canto.org/123",
   some "Northern_Cardinal_XC_123.mp3"⟩

/-- C1 counterexample: in xeno.py's `download_audio` the network fetch
precedes the existence check, so calling it a second time after a
successful first call performs a SECOND network fetch (the fetch counter
reaches 2), and the second call returns `True` — the same value as a fresh
save, not a distinct Skipped report.  This refutes the claim for the cited
xeno.py variant; the file itself is still written only once. -/
theorem xeno_download_audio_refetch_cex :
    (xeno_download_audio okEnv "f" "a.mp3" "u" sampleMeta emptyWorld).1 = true ∧
    (xeno_download_audio okEnv "f" "a.mp3" "u" sampleMeta emptyWorld).2.fetches = 1 ∧
    (xeno_download_audio okEnv "f" "a.mp3" "u" sampleMeta
        (xeno_download_audio okEnv "f" "a.mp3" "u" sampleMeta emptyWorld).2).2.fetches
      = 2 ∧
    (xeno_download_audio okEnv "f" "a.mp3" "u" sampleMeta
        (xeno_download_audio okEnv "f" "a.mp3" "u" sampleMeta emptyWorld).2).1
      = true ∧
    (xeno_download_audio okEnv "f" "a.mp3" "u" sampleMeta
        (xeno_download_audio okEnv "f" "a.mp3" "u" sampleMeta emptyWorld).2).2.files
      = ["f/a.mp3"] := by
  refine ⟨rfl, rfl, rfl, rfl, rfl⟩

/-- C1 (amended): for Audio_Downloader.py's `download_audio` the claim
holds as stated: a first call on a fresh deterministic path with a
succeeding fetch ends Saved, performs exactly one fetch, commits exactly
one copy of the file and inserts exactly one metadata row; the second call
short-circuits at the pre-download existence check, reports Skipped, and
changes nothing — no second fetch, no second insert — so by iteration at
most one on-disk file and one row are ever produced for that path.  In
xeno.py's variant (see the counterexample) the fetch precedes the check,
so the no-second-fetch and Skipped-report parts of the claim fail there. -/
theorem download_audio_idempotent (env : Env) (folder filename url : String)
    (meta : MetadataRecord) (w : World) (c : List Nat)
    (hfetch : env.fetch url = some c)
    (hside : env.sidecarRaises = false)
    (hins : env.insertRaises = false)
    (hfresh : pathJoin folder filename ∉ w.files) :
    (download_audio env folder filename url meta w).1 = .saved ∧
    (download_audio env folder filename url meta w).2.fetches = w.fetches + 1 ∧
    (download_audio env folder filename url meta w).2.rows = meta :: w.rows ∧
    (download_audio env folder filename url meta w).2.files.count
        (pathJoin folder filename) = 1 ∧
    download_audio env folder filename url meta
        (download_audio env folder filename url meta w).2 =
      (.skipped, (download_audio env folder filename url meta w).2) := by
  have hcount : w.files.count (pathJoin folder filename) = 0 :=
    List.count_eq_zero.mpr hfresh
  have hrun : download_audio env folder filename url meta w =
      (.saved, { w with fetches := w.fetches + 1,
                        files := pathJoin folder filename :: w.files,
                        sidecars := jsonPathOf (pathJoin folder filename) :: w.sidecars,
                        rows := meta :: w.rows }) := by
    unfold download_audio
    rw [if_neg hfresh, hfetch]
    simp [hside, hins]
  refine ⟨by rw [hrun], by rw [hrun], by rw [hrun], ?_, ?_⟩
  · rw [hrun]
    simp [hcount]
  · rw [hrun]
    unfold download_audio
    rw [if_pos (List.mem_cons_self _ _)]

/-- C1 witness: the amended theorem at a concrete environment, empty
world and sample metadata. -/
theorem download_audio_idempotent_witness :
    (download_audio okEnv "f" "a.mp3" "u" sampleMeta emptyWorld).1 = .saved ∧
    (download_audio okEnv "f" "a.mp3" "u" sampleMeta emptyWorld).2.fetches = 0 + 1 ∧
    (download_audio okEnv "f" "a.mp3" "u" sampleMeta emptyWorld).2.rows = [sampleMeta] ∧
    (download_audio okEnv "f" "a.mp3" "u" sampleMeta emptyWorld).2.files.count
        (pathJoin "f" "a.mp3") = 1 ∧
    download_audio okEnv "f" "a.mp3" "u" sampleMeta
        (download_audio okEnv "f" "a.mp3" "u" sampleMeta emptyWorld).2 =
      (.skipped, (download_audio okEnv "f" "a.mp3" "u" sampleMeta emptyWorld).2) :=
  download_audio_idempotent okEnv "f" "a.mp3" "u" sampleMeta emptyWorld []
    rfl rfl rfl (by decide)

/-! ## Claim C10: file committed, metadata insert lost -/

/-- C10: in Audio_Downloader.py's `download_audio`, if an exception is
raised after the binary file has been committed but before the DuckDB
insert completes (either the sidecar `json.dump` or the `INSERT` raises),
the call returns `False` (outcome Failed) while the binary file remains on
disk and no row is inserted; every later call with the same
(folder, filename) then returns at the existence check as Skipped without
inserting, so the on-disk asset exists permanently with no corresponding
MetadataRecord row. -/
theorem download_audio_orphan_file (env : Env) (folder filename url : String)
    (meta : MetadataRecord) (w : World) (c : List Nat)
    (hfetch : env.fetch url = some c)
    (hfail : env.sidecarRaises = true ∨ env.insertRaises = true)
    (hfresh : pathJoin folder filename ∉ w.files) :
    (download_audio env folder filename url meta w).1 = .failed ∧
    pyBool (download_audio env folder filename url meta w).1 = false ∧
    pathJoin folder filename ∈ (download_audio env folder filename url meta w).2.files ∧
    (download_audio env folder filename url meta w).2.rows = w.rows ∧
    download_audio env folder filename url meta
        (download_audio env folder filename url meta w).2 =
      (.skipped, (download_audio env folder filename url meta w).2) := by
  by_cases hs : env.sidecarRaises = true
  · have hrun : download_audio env folder filename url meta w =
        (.failed, { w with fetches := w.fetches + 1,
                           files := pathJoin folder filename :: w.files }) := by
      unfold download_audio
      rw [if_neg hfresh, hfetch]
      simp [hs]
    refine ⟨by rw [hrun], by rw [hrun]; rfl, ?_, by rw [hrun], ?_⟩
    · rw [hrun]
      exact List.mem_cons_self _ _
    · rw [hrun]
      unfold download_audio
      rw [if_pos (List.mem_cons_self _ _)]
  · have hs' : env.sidecarRaises = false := by
      cases h : env.sidecarRaises
      · rfl
      · exact absurd h hs
    have hi : env.insertRaises = true := hfail.resolve_left hs
    have hrun : download_audio env folder filename url meta w =
        (.failed, { w with fetches := w.fetches + 1,
                           files := pathJoin folder filename :: w.files,
                           sidecars := jsonPathOf (pathJoin folder filename) ::
                             w.sidecars }) := by
      unfold download_audio
      rw [if_neg hfresh, hfetch]
      simp [hs', hi]
    refine ⟨by rw [hrun], by rw [hrun]; rfl, ?_, by rw [hrun], ?_⟩
    · rw [hrun]
      exact List.mem_cons_self _ _
    · rw [hrun]
      unfold download_audio
      rw [if_pos (List.mem_cons_self _ _)]

/-- An environment whose sidecar-JSON write raises. -/
def sidecarFailEnv : Env := ⟨fun _ => some [], true, false⟩

/-- C10 witness: the theorem at a concrete environment whose sidecar write
raises, on an empty world. -/
theorem download_audio_orphan_file_witness :
    (download_audio sidecarFailEnv "f" "a.mp3" "u" sampleMeta emptyWorld).1 = .failed ∧
    pyBool (download_audio sidecarFailEnv "f" "a.mp3" "u" sampleMeta emptyWorld).1 = false ∧
    pathJoin "f" "a.mp3" ∈
      (download_audio sidecarFailEnv "f" "a.mp3" "u" sampleMeta emptyWorld).2.files ∧
    (download_audio sidecarFailEnv "f" "a.mp3" "u" sampleMeta emptyWorld).2.rows = [] ∧
    download_audio sidecarFailEnv "f" "a.mp3" "u" sampleMeta
        (download_audio sidecarFailEnv "f" "a.mp3" "u" sampleMeta emptyWorld).2 =
      (.skipped, (download_audio sidecarFailEnv "f" "a.mp3" "u" sampleMeta emptyWorld).2) :=
  download_audio_orphan_file sidecarFailEnv "f" "a.mp3" "u" sampleMeta emptyWorld []
    rfl (Or.inl rfl) (by decide)

/-! ## The driver loops and throttling
(Audio_Downloader.py: `main`'s Macaulay loop lines 184-204 and
`fetch_xeno_canto`'s loop lines 142-159) -/

def mlAudioUrl (aid : String) : String :=
  "https://cdn.download.ams.birds.cornell.edu/api/v1/asset/" ++ aid ++ "/audio"

def mlFilename (common aid : String) : String :=
  sanitize common ++ "_ML_" ++ aid ++ ".mp3"

/-- The metadata dict built in `main` lines 190-202. -/
def mlMetadata (common aid : String) (item : MLItem) : MetadataRecord :=
  { source := some "Macaulay Library", id := some aid,
    species := item.scientificName, common_name := some common,
    location := item.location, date := item.date,
    recordist := item.recordist, country := item.country,
    license := item.license,
    url := some ("https://macaulaylibrary.org/asset/" ++ aid),
    filename := some (mlFilename common aid) }

/-- A Xeno-Canto recording as consumed by `fetch_xeno_canto`
(the JSON field `rec` is spelled `rec'` here because `rec` is reserved
for the recursor in Lean). -/
structure XCItem where
  id : String
  file : String
  sp : Option String
  loc : Option String
  date : Option String
  rec' : Option String
  cnt : Option String
  lic : Option String
deriving DecidableEq

def xcFilename (common id : String) : String :=
  sanitize common ++ "_XC_" ++ id ++ ".mp3"

/-- The metadata dict built in `fetch_xeno_canto` lines 145-157. -/
def xcMetadata (common : String) (item : XCItem) : MetadataRecord :=
  { source := some "Xeno-Canto", id := some item.id,
    species := item.sp, common_name := some common,
    location := item.loc, date := item.date,
    recordist := item.rec', country := item.cnt, license := item.lic,
    url := some ("https://xeno-canto.org/" ++ item.id),
    filename := some (xcFilename common item.id) }

/-- The observable events of a driver loop: a retrieval attempt ending in a
given outcome, or a `time.sleep(1)` throttle delay. -/
inductive Event where
  | attempt (o : Outcome)
  | sleep
deriving DecidableEq

/-- `main`'s Macaulay loop (lines 184-204): items whose `assetId` is
missing or falsy are skipped by `continue`; every other item is pushed
through `download_audio` and then `time.sleep(1)` runs UNCONDITIONALLY —
the `sleep` is not guarded by the outcome. -/
def macaulayLoop (env : Env) (folder common : String) :
    List MLItem → World → World × List Event
  | [], w => (w, [])
  | item :: rest, w =>
    match item.assetId with
    | none => macaulayLoop env folder common rest w
    | some aid =>
      if aid = "" then macaulayLoop env folder common rest w
      else
        let fr := download_audio env folder (mlFilename common aid)
          (mlAudioUrl aid) (mlMetadata common aid item) w
        let tail := macaulayLoop env folder common rest fr.2
        (tail.1, .attempt fr.1 :: .sleep :: tail.2)

/-- `fetch_xeno_canto`'s loop (lines 142-159): each recording is pushed
through `download_audio`; `time.sleep(1)` runs only when `download_audio`
returned `True`, i.e. on a Saved outcome. -/
def xcLoop (env : Env) (folder common : String) :
    List XCItem → World → World × List Event
  | [], w => (w, [])
  | item :: rest, w =>
    let fr := download_audio env folder (xcFilename common item.id)
      (normalizeFileUrl item.file) (xcMetadata common item) w
    let tail := xcLoop env folder common rest fr.2
    if pyBool fr.1 then (tail.1, .attempt fr.1 :: .sleep :: tail.2)
    else (tail.1, .attempt fr.1 :: tail.2)

/-- Checks that a trace consists of attempt events, each immediately
followed by a throttle delay exactly when the predicate holds of its
outcome, and that no delay occurs anywhere else. -/
def sleepAfterExactly (p : Outcome → Bool) : List Event → Bool
  | [] => true
  | .sleep :: _ => false
  | [.attempt o] => !(p o)
  | .attempt o :: .sleep :: rest => p o && sleepAfterExactly p rest
  | .attempt o :: .attempt o' :: rest =>
      !(p o) && sleepAfterExactly p (.attempt o' :: rest)

/-- A trace that does not begin with a throttle delay. -/
def noSleepHead : List Event → Bool
  | .sleep :: _ => false
  | _ => true

theorem sleepAfterExactly_cons_sleep (p : Outcome → Bool) (o : Outcome)
    (tr : List Event) :
    sleepAfterExactly p (.attempt o :: .sleep :: tr) =
      (p o && sleepAfterExactly p tr) := rfl

theorem sleepAfterExactly_cons (p : Outcome → Bool) (o : Outcome)
    {tr : List Event} (h : noSleepHead tr = true) :
    sleepAfterExactly p (.attempt o :: tr) =
      (!(p o) && sleepAfterExactly p tr) := by
  match tr with
  | [] => simp [sleepAfterExactly]
  | .sleep :: rest => simp [noSleepHead] at h
  | .attempt o' :: rest => rfl

theorem macaulayLoop_noSleepHead (env : Env) (folder common : String)
    (items : List MLItem) (w : World) :
    noSleepHead (macaulayLoop env folder common items w).2 = true := by
  induction items generalizing w with
  | nil => rfl
  | cons item rest ih =>
      cases h : item.assetId with
      | none => simpa [macaulayLoop, h] using ih w
      | some aid =>
          by_cases ha : aid = ""
          · simpa [macaulayLoop, h, ha] using ih w
          · simp [macaulayLoop, h, ha, noSleepHead]

theorem xcLoop_noSleepHead (env : Env) (folder common : String)
    (items : List XCItem) (w : World) :
    noSleepHead (xcLoop env folder common items w).2 = true := by
  cases items with
  | nil => rfl
  | cons item rest =>
      simp only [xcLoop]
      by_cases h : pyBool (download_audio env folder (xcFilename common item.id)
          (normalizeFileUrl item.file) (xcMetadata common item) w).1 <;>
        simp [h, noSleepHead]

/-- xeno.py's metadata dict (lines 91-102) mapped onto the row schema: it
carries a genus field and neither common_name nor filename; xeno.py has no
Persistence Sink and the sidecar content is not tracked here, so the
genus value (which has no column) is dropped and the missing fields are
empty. -/
def xeno_xcMetadata (item : XCItem) : MetadataRecord :=
  { source := some "Xeno-Canto", id := some item.id,
    species := item.sp, common_name := none,
    location := item.loc, date := item.date,
    recordist := item.rec', country := item.cnt, license := item.lic,
    url := some ("https://xeno-canto.org/" ++ item.id),
    filename := none }

/-- The semantic outcome of a call to xeno.py's `download_audio`: Failed
on a fetch failure or a sidecar-write exception, Skipped when the file
already exists (reached only after the fetch), Saved otherwise. -/
def xeno_outcome (env : Env) (folder filename url : String) (w : World) :
    Outcome :=
  match env.fetch url with
  | none => .failed
  | some _ =>
    if pathJoin folder filename ∈ w.files then .skipped
    else if env.sidecarRaises then .failed else .saved

/-- The Python return value of xeno.py's `download_audio`: `True` for BOTH
a fresh save and an already-existing file (line 73 and line 76), `False`
only for a failure. -/
def xenoPyBool : Outcome → Bool
  | .failed => false
  | _ => true

/-- xeno.py's `download_audio` returns exactly `xenoPyBool` of its
semantic outcome. -/
theorem xeno_download_audio_fst (env : Env) (folder filename url : String)
    (meta : MetadataRecord) (w : World) :
    (xeno_download_audio env folder filename url meta w).1 =
      xenoPyBool (xeno_outcome env folder filename url w) := by
  unfold xeno_download_audio xeno_outcome
  cases env.fetch url with
  | none => rfl
  | some c =>
      by_cases hmem : pathJoin folder filename ∈ w.files
      · simp [hmem, xenoPyBool]
      · by_cases hs : env.sidecarRaises <;> simp [hmem, hs, xenoPyBool]

/-- xeno.py's `fetch_xeno_canto` loop (lines 88-104): each recording is
pushed through xeno.py's `download_audio`; `time.sleep(1)` runs whenever
that call returned `True` — which it does on the already-exists path as
well as on a fresh save. -/
def xeno_xcLoop (env : Env) (folder common : String) :
    List XCItem → World → World × List Event
  | [], w => (w, [])
  | item :: rest, w =>
    let o := xeno_outcome env folder (xcFilename common item.id)
      (normalizeFileUrl item.file) w
    let fr := xeno_download_audio env folder (xcFilename common item.id)
      (normalizeFileUrl item.file) (xeno_xcMetadata item) w
    let tail := xeno_xcLoop env folder common rest fr.2
    if fr.1 then (tail.1, .attempt o :: .sleep :: tail.2)
    else (tail.1, .attempt o :: tail.2)

theorem xeno_xcLoop_noSleepHead (env : Env) (folder common : String)
    (items : List XCItem) (w : World) :
    noSleepHead (xeno_xcLoop env folder common items w).2 = true := by
  cases items with
  | nil => rfl
  | cons item rest =>
      simp only [xeno_xcLoop]
      by_cases h : (xeno_download_audio env folder (xcFilename common item.id)
          (normalizeFileUrl item.file) (xeno_xcMetadata item) w).1 <;>
        simp [h, noSleepHead]

/-! ## Claim C4: throttle placement -/

/-- An environment in which every media fetch fails. -/
def fetchFailEnv : Env := ⟨fun _ => none, false, false⟩

/-- A world already holding the asset `main` is about to retrieve. -/
def throttleCexWorld : World := ⟨["f/C_ML_1.mp3"], [], [], 0⟩

/-- A world already holding the recording xeno.py's `fetch_xeno_canto` is
about to retrieve. -/
def xenoThrottleCexWorld : World := ⟨["f/C_XC_1.mp3"], [], [], 0⟩

def xcCexItem : XCItem := ⟨"1", "u", none, none, none, none, none, none⟩

/-- C4 counterexample: in `main`'s Macaulay loop the `time.sleep(1)` on
line 204 is unconditional, so a retrieval that ends Skipped (the file
already exists) IS followed by the throttle delay, and so is one that ends
Failed; and in xeno.py's `fetch_xeno_canto` loop the sleep is guarded by a
`download_audio` that returns `True` on the already-exists path (line 76),
so there too a Skipped transition IS followed by the delay — refuting "no
Skipped or Failed transition is followed by the delay". -/
theorem macaulay_sleep_after_skipped_cex :
    (macaulayLoop okEnv "f" "C" [mlItemWithId "1"] throttleCexWorld).2 =
      [.attempt .skipped, .sleep] ∧
    (macaulayLoop fetchFailEnv "f" "C" [mlItemWithId "1"] emptyWorld).2 =
      [.attempt .failed, .sleep] ∧
    (xeno_xcLoop okEnv "f" "C" [xcCexItem] xenoThrottleCexWorld).2 =
      [.attempt .skipped, .sleep] := by
  refine ⟨rfl, rfl, rfl⟩

/-- C4 (amended): the placement of the fixed inter-download delay depends
on the loop.  In Audio_Downloader.py's `fetch_xeno_canto` loop the delay
follows a retrieval exactly when it ended Saved — Skipped and Failed incur
no delay there.  In xeno.py's `fetch_xeno_canto` loop the sleep is guarded
by its `download_audio`'s return value, which is `True` on the
already-exists path too, so the delay follows a retrieval exactly when it
ended Saved or Skipped, and only Failed incurs none.  In `main`'s Macaulay
loop the `time.sleep(1)` is unconditional: every retrieval attempt is
followed by the delay, whatever its outcome. -/
theorem throttle_policy (env : Env) (folder common : String)
    (mitems : List MLItem) (xitems xitems' : List XCItem) (w w' w'' : World) :
    sleepAfterExactly (fun _ => true)
        (macaulayLoop env folder common mitems w).2 = true ∧
    sleepAfterExactly pyBool (xcLoop env folder common xitems w').2 = true ∧
    sleepAfterExactly xenoPyBool
        (xeno_xcLoop env folder common xitems' w'').2 = true := by
  refine ⟨?_, ?_, ?_⟩
  · induction mitems generalizing w with
    | nil => rfl
    | cons item rest ih =>
        cases h : item.assetId with
        | none => simpa [macaulayLoop, h] using ih w
        | some aid =>
            by_cases ha : aid = ""
            · simpa [macaulayLoop, h, ha] using ih w
            · simp only [macaulayLoop, h]
              rw [if_neg ha, sleepAfterExactly_cons_sleep]
              simpa using ih _
  · induction xitems generalizing w' with
    | nil => rfl
    | cons item rest ih =>
        simp only [xcLoop]
        by_cases h : pyBool (download_audio env folder (xcFilename common item.id)
            (normalizeFileUrl item.file) (xcMetadata common item) w').1
        · rw [if_pos h]
          simp only [sleepAfterExactly_cons_sleep, h, Bool.true_and]
          exact ih _
        · rw [if_neg h]
          simp only
          rw [sleepAfterExactly_cons pyBool _ (xcLoop_noSleepHead env folder common rest _)]
          simp only [Bool.not_eq_true] at h
          simp [h]
          exact ih _
  · induction xitems' generalizing w'' with
    | nil => rfl
    | cons item rest ih =>
        simp only [xeno_xcLoop]
        rw [xeno_download_audio_fst]
        by_cases h : xenoPyBool (xeno_outcome env folder (xcFilename common item.id)
            (normalizeFileUrl item.file) w'')
        · rw [if_pos h]
          simp only [sleepAfterExactly_cons_sleep, h, Bool.true_and]
          exact ih _
        · rw [if_neg h]
          simp only
          rw [sleepAfterExactly_cons xenoPyBool _
            (xeno_xcLoop_noSleepHead env folder common rest _)]
          simp only [Bool.not_eq_true] at h
          simp [h]
          exact ih _

/-! ## Flat Catalog adapter — Xeno-Canto
(Audio_Downloader.py lines 135-161: `fetch_xeno_canto`;
xeno.py lines 81-106: the same function without an item bound) -/

def XCTransport : Type := String → Except Unit (List XCItem)

/-- Python `scientific_name.lower()` for the ASCII names this program
handles. -/
def pyLower (s : String) : String := ⟨s.data.map Char.toLower⟩

/-- Python `.replace(' ', '+')`. -/
def replaceSpacePlus (s : String) : String :=
  ⟨s.data.map fun c => if c = ' ' then '+' else c⟩

/-- The query string of line 138: `f"sp:{scientific_name.lower().replace(' ', '+')}"`. -/
def xcQueryOf (sci : String) : String := "sp:" ++ replaceSpacePlus (pyLower sci)

/-- The recording descriptors `fetch_xeno_canto` of Audio_Downloader.py
derives from one response: on success the recordings truncated to
`max_items` (line 141), each turned into its (filename, normalized media
URL, metadata row); on any caught exception, nothing. -/
def xcDescriptors (t : XCTransport) (common sci : String) (maxItems : Nat) :
    List (String × String × MetadataRecord) :=
  match t (xcQueryOf sci) with
  | .error _ => []
  | .ok recs => (recs.take maxItems).map fun item =>
      (xcFilename common item.id, normalizeFileUrl item.file,
       xcMetadata common item)

/-- `fetch_xeno_canto` of Audio_Downloader.py in full: one query, then the
download loop over the first `max_items` recordings; a failed query leaves
the world untouched and produces no events (the exception is caught on
line 160-161 and only printed). -/
def fetch_xeno_canto (t : XCTransport) (env : Env) (common sci folder : String)
    (maxItems : Nat) (w : World) : World × List Event :=
  match t (xcQueryOf sci) with
  | .error _ => (w, [])
  | .ok recs => xcLoop env folder common (recs.take maxItems) w

/-- The recordings list consumed by xeno.py's `fetch_xeno_canto` (line 87):
`response.json().get('recordings', [])` with NO truncation — the variant
takes no `max_items` argument and its loop visits every recording. -/
def xeno_fetch_recordings (t : XCTransport) (sci : String) : List XCItem :=
  match t (xcQueryOf sci) with
  | .error _ => []
  | .ok recs => recs

/-! ## Claim C5: flat-catalog bound and failure handling -/

def xcSampleItem : XCItem :=
  ⟨"1", "//xc.org/a.mp3", none, none, none, none, none, none⟩

/-- A server answering every query with 22 recordings. -/
def xcTransport22 : XCTransport := fun _ => .ok (List.replicate 22 xcSampleItem)

/-- C5 counterexample: xeno.py's `fetch_xeno_canto` takes no `max_items`
bound and does not truncate: fed 22 recordings it processes all 22,
exceeding the 21-item bound the other variant (and the claim) imposes. -/
theorem xeno_fetch_no_truncation_cex :
    (xeno_fetch_recordings xcTransport22 "x y").length = 22 ∧ ¬ (22 ≤ 21) := by
  exact ⟨rfl, by decide⟩

/-- C5 (amended): Audio_Downloader.py's `fetch_xeno_canto` yields at most
`max_items` descriptors per species query — truncating when the source
returns more — and any transport or HTTP failure yields no descriptors,
leaves the world untouched and produces no events; nothing is raised past
the adapter (it is a total function).  xeno.py's variant has no bound and
yields every recording returned (see the counterexample); it handles
failure the same way. -/
theorem flat_catalog_bounded (t : XCTransport) (env : Env)
    (common sci folder : String) (maxItems : Nat) (w : World) :
    (xcDescriptors t common sci maxItems).length ≤ maxItems ∧
    (t (xcQueryOf sci) = .error () →
      xcDescriptors t common sci maxItems = [] ∧
      fetch_xeno_canto t env common sci folder maxItems w = (w, []) ∧
      xeno_fetch_recordings t sci = []) := by
  constructor
  · unfold xcDescriptors
    cases t (xcQueryOf sci) with
    | error e => simp
    | ok recs => simp
  · intro h
    unfold xcDescriptors fetch_xeno_canto xeno_fetch_recordings
    rw [h]
    exact ⟨rfl, rfl, rfl⟩

/-- A server failing every query. -/
def xcFailTransport : XCTransport := fun _ => .error ()

/-- C5 witness: the bound at the 22-recording server, and the failure case
at the always-failing server. -/
theorem flat_catalog_bounded_witness :
    (xcDescriptors xcTransport22 "C" "x y" 21).length ≤ 21 ∧
      (xcDescriptors xcFailTransport "C" "x y" 21 = [] ∧
        fetch_xeno_canto xcFailTransport okEnv "C" "x y" "f" 21 emptyWorld =
          (emptyWorld, []) ∧
        xeno_fetch_recordings xcFailTransport "x y" = []) :=
  ⟨(flat_catalog_bounded xcTransport22 okEnv "C" "x y" "f" 21 emptyWorld).1,
   (flat_catalog_bounded xcFailTransport okEnv "C" "x y" "f" 21 emptyWorld).2 rfl⟩

/-! ## Taxonomy resolution and folder construction
(Audio_Downloader.py lines 63-72: `get_taxonomy_info`;
lines 172-178 of `main`: folder path) -/

/-- A row of the eBird taxonomy table after line 39 keeps the columns
PRIMARY_COM_NAME, SCI_NAME, ORDER, FAMILY, SPECIES_CODE. -/
structure TaxRow where
  primary_com_name : String
  sci_name : String
  order : String
  family : String
  species_code : String
deriving DecidableEq

/-- `get_taxonomy_info`: exact equality match on BOTH name columns; the
first matching row's (ORDER, FAMILY) on a hit, `(None, None)` on a miss
(the "not found" branch prints and returns None, None). -/
def get_taxonomy_info (table : List TaxRow) (common sci : String) :
    Option String × Option String :=
  match table.find? (fun r => r.primary_com_name == common && r.sci_name == sci) with
  | some r => (some r.order, some r.family)
  | none => (none, none)

/-- Python truthiness of the values `get_taxonomy_info` can return:
`None` and the empty string are falsy. -/
def pyTruthy : Option String → Bool
  | none => false
  | some s => !s.isEmpty

/-- `main` lines 173-176: `if order and family:` selects the nested
`<base>/<sanitized_order>/<sanitized_family>/<sanitized_common_name>`
path; otherwise the flat `<base>/<sanitized_common_name>` path. -/
def speciesFolderPath (base common : String)
    (tax : Option String × Option String) : String :=
  if pyTruthy tax.1 && pyTruthy tax.2 then
    base ++ "/" ++ sanitize (tax.1.getD "") ++ "/" ++ sanitize (tax.2.getD "")
      ++ "/" ++ sanitize common
  else
    base ++ "/" ++ sanitize common

/-! ## Claim C7: fallback folder policy -/

/-- C7: an unresolved lookup — no taxonomy row matches the
(common name, scientific name) pair — yields `(None, None)`, and the
computed destination folder is then exactly `<base>/<sanitized_common_name>`
with no order or family segments; when order and family are both present
(non-null and non-empty, which is what Python's `if order and family:`
tests) the folder is
`<base>/<sanitized_order>/<sanitized_family>/<sanitized_common_name>`. -/
theorem species_folder_fallback (table : List TaxRow) (base common sci : String) :
    (table.find? (fun r => r.primary_com_name == common && r.sci_name == sci) = none →
      get_taxonomy_info table common sci = (none, none)) ∧
    speciesFolderPath base common (none, none) = base ++ "/" ++ sanitize common ∧
    (∀ o f : String, o ≠ "" → f ≠ "" →
      speciesFolderPath base common (some o, some f) =
        base ++ "/" ++ sanitize o ++ "/" ++ sanitize f ++ "/" ++ sanitize common) := by
  refine ⟨?_, ?_, ?_⟩
  · intro h
    unfold get_taxonomy_info
    rw [h]
  · rfl
  · intro o f ho hf
    unfold speciesFolderPath
    rw [if_pos]
    · rfl
    · have ho' : o.isEmpty = false :=
        Bool.eq_false_iff.mpr fun h => ho ((String.isEmpty_iff o).mp h)
      have hf' : f.isEmpty = false :=
        Bool.eq_false_iff.mpr fun h => hf ((String.isEmpty_iff f).mp h)
      simp [pyTruthy, ho', hf']

/-- A one-row taxonomy table for the witness. -/
def taxTableEx : List TaxRow :=
  [⟨"Northern Cardinal", "Cardinalis cardinalis", "Passeriformes",
    "Cardinalidae", "norcar"⟩]

/-- C7 witness: the unresolved case at a species missing from the table,
and the nested case at concrete order and family names. -/
theorem species_folder_fallback_witness :
    get_taxonomy_info taxTableEx "Dodo" "Raphus cucullatus" = (none, none) ∧
      speciesFolderPath "audio_samples" "Northern Cardinal"
          (some "Passeriformes", some "Cardinalidae") =
        "audio_samples" ++ "/" ++ sanitize "Passeriformes" ++ "/" ++
          sanitize "Cardinalidae" ++ "/" ++ sanitize "Northern Cardinal" :=
  ⟨(species_folder_fallback taxTableEx "audio_samples" "Dodo" "Raphus cucullatus").1
     (by decide),
   (species_folder_fallback taxTableEx "audio_samples" "Northern Cardinal"
       "Cardinalis cardinalis").2.2 "Passeriformes" "Cardinalidae"
     (by decide) (by decide)⟩
